import Mathlib

/-!
# Boot-volume-backup cross-region copy handler (`func.go`)

A shallow embedding of `func.go`: the event record, the `Action` built from an
event and the process environment, the dispatcher `runAction`, the two
executors and the top-level handler `fnMain`.

Go values are embedded as follows.

* A Go `string` is a Lean `String`; a Go `error` (an interface value, possibly
  `nil`) is an `Option GoError`; a `*string` produced by `common.String` is an
  `Option String`; a `context.Context` interface value is an `Option Context`.
* Everything the handler does to the outside world (logging, standard output,
  environment look-ups, credential acquisition, SDK client construction, the
  remote copy call, the write to the invocation output) is recorded, in program
  order, in a list of `Effect`s that each function returns next to its Go
  result. Entering a function of `func.go` is recorded as well (`Effect.call`).
* The answers of the outside world (environment, JSON decoder, credential
  provider, SDK) are not part of the repository; they are the fields of
  `Externals`, over which every theorem quantifies.
-/

namespace BootVolumeBackupMultiCopy

/-! ## Constants (`func.go`, lines 18-24) -/

def envBucketName : String := "OCI_BUCKETNAME"
def envSourceRegion : String := "OCI_SOURCE_REGION"
def envDestinationRegion : String := "OCI_DESTINATION_REGION"
def actionTypeCreate : String := "com.oraclecloud.blockvolumes.createbootvolumebackup.end"
def actionTypeDelete : String := "com.oraclecloud.blockvolumes.deletebootvolumebackup.end"

/-! ## Data model -/

/-- Go `time.Time`, as seconds and nanoseconds; the zero value is all zeroes. -/
structure Time where
  sec : Int := 0
  nsec : Nat := 0
deriving DecidableEq, Repr

/-- The `additionalDetails` object of `EventsInput.Data`. -/
structure AdditionalDetails where
  SourceType : String := ""
  VolumeID : String := ""
deriving DecidableEq, Repr

/-- The `organization` object of the defined tags. -/
structure Organization where
  Fy20Level2 : String := ""
  Fy20Level1 : String := ""
deriving DecidableEq, Repr

/-- The `basic` object of the defined tags. -/
structure Basic where
  Owner : String := ""
  CreatedBy : String := ""
deriving DecidableEq, Repr

/-- The `definedTags` object of `EventsInput.Data`. -/
structure DefinedTags where
  Organization : Organization := {}
  Basic : Basic := {}
deriving DecidableEq, Repr

/-- The `data` object of `EventsInput`. -/
structure EventsData where
  CompartmentID : String := ""
  CompartmentName : String := ""
  ResourceName : String := ""
  ResourceID : String := ""
  AdditionalDetails : AdditionalDetails := {}
  DefinedTags : DefinedTags := {}
deriving DecidableEq, Repr

/-- The `extensions` object of `EventsInput`. -/
structure Extensions where
  CompartmentID : String := ""
deriving DecidableEq, Repr

/-- Go `EventsInput` (lines 27-58); the defaults are Go's zero values, so `{}`
is `EventsInput{}`. -/
structure EventsInput where
  EventType : String := ""
  CloudEventsVersion : String := ""
  EventTypeVersion : String := ""
  Source : String := ""
  EventTime : Time := {}
  ContentType : String := ""
  Data : EventsData := {}
  EventID : String := ""
  Extensions : Extensions := {}
deriving DecidableEq, Repr

/-- A non-nil `context.Context`, identified by a handle. -/
structure Context where
  id : Nat
deriving DecidableEq, Repr

/-- Go `Action` (lines 61-68); `{}` is the zero value `Action{}`, whose `ctx`
is the nil interface. -/
structure Action where
  BootVolumeBackupOCID : String := ""
  BootVolumeBackupName : String := ""
  SourceRegion : String := ""
  DestinationRegion : String := ""
  ActionType : String := ""
  ctx : Option Context := none
deriving DecidableEq, Repr

/-- A non-nil Go `error`: the text its `Error()` method returns. -/
structure GoError where
  msg : String
deriving DecidableEq, Repr

/-! ## `fmt.Errorf` with the `%s` verb -/

/-- Expansion of a format whose only verb is one `%s`, applied to one string
operand: the operand replaces the verb verbatim. These are the only formats
`func.go` uses. -/
def sprintfS : List Char → String → List Char
  | [], _ => []
  | '%' :: 's' :: rest, arg => arg.data ++ rest
  | c :: rest, arg => c :: sprintfS rest arg

/-- Go `fmt.Errorf(format, arg)` for such a format. -/
def Errorf (format : String) (arg : String) : GoError :=
  ⟨⟨sprintfS format.data arg⟩⟩

/-- The error text contains `name` as a contiguous substring. -/
def GoError.names (err : GoError) (name : String) : Prop :=
  name.data <:+: err.msg.data

instance (err : GoError) (name : String) : Decidable (err.names name) := by
  unfold GoError.names
  infer_instance

/-! ## The SDK boundary -/

/-- A `common.ConfigurationProvider` obtained from the resource principal. -/
structure ConfigurationProvider where
  handle : Nat
deriving DecidableEq, Repr

/-- A `core.BlockstorageClient`: what construction produced, and the region its
endpoint targets. -/
structure BlockstorageClient where
  handle : Nat
  Region : String
deriving DecidableEq, Repr

/-- Go `client.SetRegion(region)`: overrides the region of the client. -/
def BlockstorageClient.SetRegion (client : BlockstorageClient) (region : String) :
    BlockstorageClient :=
  { client with Region := region }

/-- The fields of `core.CopyBootVolumeBackupDetails` that `func.go` sets. -/
structure CopyBootVolumeBackupDetails where
  DestinationRegion : Option String := none
  DisplayName : Option String := none
deriving DecidableEq, Repr

/-- The fields of `core.CopyBootVolumeBackupRequest` that `func.go` sets. -/
structure CopyBootVolumeBackupRequest where
  CopyBootVolumeBackupDetails : CopyBootVolumeBackupDetails := {}
  BootVolumeBackupId : Option String := none
deriving DecidableEq, Repr

/-- A `core.CopyBootVolumeBackupResponse`; the handler discards it. -/
structure CopyBootVolumeBackupResponse where
  handle : Nat
deriving DecidableEq, Repr

/-- One outbound copy call: the client it is made on, the context it is made
under and the request it carries. -/
structure CopyCall where
  client : BlockstorageClient
  ctx : Option Context
  request : CopyBootVolumeBackupRequest
deriving DecidableEq, Repr

/-- The functions of `func.go` below `fnMain`. -/
inductive Func where
  | generateAction
  | runAction
  | copyBlockVolumeBackup
  | deleteBlockVolumeBackupInAnotherRegion
deriving DecidableEq, Repr

/-- What one invocation does, in program order. -/
inductive Effect where
  /-- Go `loglib.InitSugar()`. -/
  | InitSugar
  /-- Go `loglib.Sugar.Sync()` (deferred in `fnMain`). -/
  | Sync
  /-- Go `loglib.Sugar.Error(err)`. -/
  | Error (err : GoError)
  /-- Go `json.NewDecoder(in).Decode(input)`. -/
  | Decode
  /-- Control enters a function of `func.go`. -/
  | call (f : Func)
  /-- Go `os.LookupEnv(name)`. -/
  | LookupEnv (name : String)
  /-- Go `fmt.Println(action)` on standard output. -/
  | Println (action : Action)
  /-- Go `auth.ResourcePrincipalConfigurationProvider()`. -/
  | ResourcePrincipalConfigurationProvider
  /-- Go `core.NewBlockstorageClientWithConfigurationProvider(provider)`. -/
  | NewBlockstorageClientWithConfigurationProvider (provider : ConfigurationProvider)
  /-- Go `client.CopyBootVolumeBackup(ctx, request)`: the outbound call. -/
  | CopyBootVolumeBackup (c : CopyCall)
  /-- Go `out.Write(p)` on the invocation output stream. -/
  | Write (p : String)
deriving DecidableEq, Repr

/-- The outside world of one invocation. -/
structure Externals where
  /-- Go `os.LookupEnv`: `none` when the variable is not set (`ok = false`). -/
  LookupEnv : String → Option String
  /-- Go `json.NewDecoder(in).Decode(input)`: the record `input` points to after
  decoding the stream into it (the returned error is dropped by `fnMain`). -/
  Decode : List UInt8 → EventsInput → EventsInput
  /-- Go `auth.ResourcePrincipalConfigurationProvider()`. -/
  ResourcePrincipalConfigurationProvider : ConfigurationProvider × Option GoError
  /-- Go `core.NewBlockstorageClientWithConfigurationProvider`. -/
  NewBlockstorageClientWithConfigurationProvider :
    ConfigurationProvider → BlockstorageClient × Option GoError
  /-- Go `client.CopyBootVolumeBackup`. -/
  CopyBootVolumeBackup : CopyCall → CopyBootVolumeBackupResponse × Option GoError

/-! ## Observations on a list of effects -/

/-- The outbound copy calls, in order. -/
def outboundCalls : List Effect → List CopyCall
  | [] => []
  | .CopyBootVolumeBackup c :: rest => c :: outboundCalls rest
  | _ :: rest => outboundCalls rest

/-- The chunks written to the invocation output stream, in order. -/
def written : List Effect → List String
  | [] => []
  | .Write p :: rest => p :: written rest
  | _ :: rest => written rest

/-- The functions of `func.go` that were entered, in order. -/
def entered : List Effect → List Func
  | [] => []
  | .call f :: rest => f :: entered rest
  | _ :: rest => entered rest

/-- The environment variables that were looked up, in order. -/
def lookedUp : List Effect → List String
  | [] => []
  | .LookupEnv name :: rest => name :: lookedUp rest
  | _ :: rest => lookedUp rest

/-! ## The functions of `func.go` -/

/-- Go `generateAction` (lines 104-137). -/
def generateAction (x : Externals) (ctx : Option Context) (input : EventsInput) :
    (Action × Option GoError) × List Effect :=
  let action : Action := {}
  let action := { action with ActionType := input.EventType }
  let action := { action with BootVolumeBackupOCID := input.Data.ResourceID }
  let action := { action with BootVolumeBackupName := input.Data.ResourceName }
  match x.LookupEnv envSourceRegion with
  | none =>
    let err := Errorf "can not read envSourceRegion from environment variable %s" envSourceRegion
    ((action, some err), [.call .generateAction, .LookupEnv envSourceRegion])
  | some sourceRegion =>
    let action := { action with SourceRegion := sourceRegion }
    match x.LookupEnv envDestinationRegion with
    | none =>
      let err :=
        Errorf "can not read envDestinationRegion from environment variable %s" envDestinationRegion
      ((action, some err),
        [.call .generateAction, .LookupEnv envSourceRegion, .LookupEnv envDestinationRegion])
    | some destinationRegionString =>
      let action := { action with DestinationRegion := destinationRegionString }
      let action := { action with ctx := ctx }
      ((action, none),
        [.call .generateAction, .LookupEnv envSourceRegion, .LookupEnv envDestinationRegion])

/-- Go `copyBlockVolumeBackup` (lines 160-194). -/
def copyBlockVolumeBackup (x : Externals) (action : Action) : Option GoError × List Effect :=
  let t : List Effect := [.call .copyBlockVolumeBackup, .ResourcePrincipalConfigurationProvider]
  match x.ResourcePrincipalConfigurationProvider with
  | (_, some err) => (some err, t ++ [.Error err])
  | (provider, none) =>
    let t := t ++ [.NewBlockstorageClientWithConfigurationProvider provider]
    let (client, err) := x.NewBlockstorageClientWithConfigurationProvider provider
    let client := client.SetRegion action.SourceRegion
    match err with
    | some err => (some err, t ++ [.Error err])
    | none =>
      let copyBootVolumeBackupDetails : CopyBootVolumeBackupDetails :=
        { DestinationRegion := some action.DestinationRegion,
          DisplayName := some action.BootVolumeBackupName }
      let request : CopyBootVolumeBackupRequest :=
        { CopyBootVolumeBackupDetails := copyBootVolumeBackupDetails,
          BootVolumeBackupId := some action.BootVolumeBackupOCID }
      let c : CopyCall := { client := client, ctx := action.ctx, request := request }
      let t := t ++ [.CopyBootVolumeBackup c]
      match (x.CopyBootVolumeBackup c).2 with
      | some err => (some err, t ++ [.Error err])
      | none => (none, t)

/-- Go `deleteBlockVolumeBackupInAnotherRegion` (lines 196-198). -/
def deleteBlockVolumeBackupInAnotherRegion (_action : Action) : Option GoError × List Effect :=
  (none, [.call .deleteBlockVolumeBackupInAnotherRegion])

/-- Go `runAction` (lines 139-158). -/
def runAction (x : Externals) (action : Action) : Option GoError × List Effect :=
  let t : List Effect := [.call .runAction, .Println action]
  let (err, t) : Option GoError × List Effect :=
    if action.ActionType = actionTypeCreate then
      let (err, u) := copyBlockVolumeBackup x action
      (err, t ++ u)
    else if action.ActionType = actionTypeDelete then
      let (err, u) := deleteBlockVolumeBackupInAnotherRegion action
      (err, t ++ u)
    else
      (some (Errorf "do nothing. ActionType : %s" action.ActionType), t)
  match err with
  | some err => (some err, t)
  | none => (none, t)

/-- Go `fnMain` (lines 79-102): the effects of one invocation on the input
stream `rd` under the context `ctx`. -/
def fnMain (x : Externals) (ctx : Option Context) (rd : List UInt8) : List Effect :=
  let t : List Effect := [.InitSugar]
  let input : EventsInput := {}
  let input := x.Decode rd input
  let t := t ++ [.Decode]
  let ((action, err), u) := generateAction x ctx input
  let t := t ++ u
  match err with
  | some err => t ++ [.Error err] ++ [.Sync]
  | none =>
    let (err, u) := runAction x action
    let t := t ++ u
    match err with
    | some err => t ++ [.Error err] ++ [.Sync]
    | none => t ++ [.Write "Done!"] ++ [.Sync]

/-! ## Concrete worlds used to instantiate the theorems -/

/-- An environment holding at most the two region variables. -/
def sampleEnv (src dst : Option String) : String → Option String := fun name =>
  if name = envSourceRegion then src
  else if name = envDestinationRegion then dst
  else none

/-- An event of the given type about the backup `ocid1.bootvolumebackup.a`,
named `nightly-1`. -/
def sampleEvent (eventType : String) : EventsInput :=
  { EventType := eventType,
    Data := { ResourceID := "ocid1.bootvolumebackup.a", ResourceName := "nightly-1" } }

/-- A world whose decoder yields `event`, whose environment is
`sampleEnv src dst`, and whose credential provider, client constructor and
copy call fail exactly with the given errors. -/
def sampleWorld (event : EventsInput) (src dst : Option String)
    (credErr clientErr callErr : Option GoError) : Externals :=
  { LookupEnv := sampleEnv src dst,
    Decode := fun _ _ => event,
    ResourcePrincipalConfigurationProvider := (⟨7⟩, credErr),
    NewBlockstorageClientWithConfigurationProvider := fun p => (⟨p.handle, "home"⟩, clientErr),
    CopyBootVolumeBackup := fun _ => (⟨0⟩, callErr) }

/-! ## Auxiliary facts -/

theorem Errorf_source_msg :
    Errorf "can not read envSourceRegion from environment variable %s" envSourceRegion =
      ⟨"can not read envSourceRegion from environment variable OCI_SOURCE_REGION"⟩ := by
  decide

theorem Errorf_destination_msg :
    Errorf "can not read envDestinationRegion from environment variable %s" envDestinationRegion =
      ⟨"can not read envDestinationRegion from environment variable OCI_DESTINATION_REGION"⟩ := by
  decide

theorem Errorf_unmatched_msg (s : String) :
    (Errorf "do nothing. ActionType : %s" s).msg = "do nothing. ActionType : " ++ s := by
  apply String.ext
  simp [Errorf, sprintfS]

theorem actionTypeCreate_ne_actionTypeDelete : actionTypeCreate ≠ actionTypeDelete := by
  decide

theorem outboundCalls_append (t u : List Effect) :
    outboundCalls (t ++ u) = outboundCalls t ++ outboundCalls u := by
  induction t with
  | nil => rfl
  | cons e t ih => cases e <;> simp [outboundCalls, ih]

theorem written_append (t u : List Effect) : written (t ++ u) = written t ++ written u := by
  induction t with
  | nil => rfl
  | cons e t ih => cases e <;> simp [written, ih]

theorem entered_append (t u : List Effect) : entered (t ++ u) = entered t ++ entered u := by
  induction t with
  | nil => rfl
  | cons e t ih => cases e <;> simp [entered, ih]

/-! ## Resolution: `generateAction` -/

/-- C1: when both region variables are set, `generateAction` returns no error
and the Action whose `ActionType`, `BootVolumeBackupOCID` and
`BootVolumeBackupName` are the event's `eventType`, `data.resourceId` and
`data.resourceName`, whose regions are the two configured values and whose
`ctx` is the invocation context; for a backup-created event the Action's kind
is the backup-created identifier. -/
theorem generateAction_resolves (x : Externals) (ctx : Option Context) (input : EventsInput)
    (src dst : String)
    (hs : x.LookupEnv envSourceRegion = some src)
    (hd : x.LookupEnv envDestinationRegion = some dst) :
    (generateAction x ctx input).1 =
        ({ BootVolumeBackupOCID := input.Data.ResourceID,
           BootVolumeBackupName := input.Data.ResourceName,
           SourceRegion := src,
           DestinationRegion := dst,
           ActionType := input.EventType,
           ctx := ctx }, none) ∧
      (input.EventType = actionTypeCreate →
        (generateAction x ctx input).1.1.ActionType = actionTypeCreate) := by
  simp [generateAction, hs, hd]

theorem generateAction_resolves_witness :
    (generateAction (sampleWorld {} (some "us-1") (some "us-2") none none none) (some ⟨1⟩)
        (sampleEvent actionTypeCreate)).1 =
      ({ BootVolumeBackupOCID := "ocid1.bootvolumebackup.a",
         BootVolumeBackupName := "nightly-1",
         SourceRegion := "us-1",
         DestinationRegion := "us-2",
         ActionType := "com.oraclecloud.blockvolumes.createbootvolumebackup.end",
         ctx := some ⟨1⟩ }, none) :=
  (generateAction_resolves (sampleWorld {} (some "us-1") (some "us-2") none none none)
    (some ⟨1⟩) (sampleEvent actionTypeCreate) "us-1" "us-2" (by decide) (by decide)).1

/-- C2: when the source-region or the destination-region variable is not set,
`generateAction` returns a non-nil error, whatever the event; the error text
names `OCI_SOURCE_REGION` whenever the source variable is not set, and names
`OCI_DESTINATION_REGION` when only the destination variable is not set. -/
theorem generateAction_missing_setting (x : Externals) (ctx : Option Context)
    (input : EventsInput)
    (h : x.LookupEnv envSourceRegion = none ∨ x.LookupEnv envDestinationRegion = none) :
    ∃ err, (generateAction x ctx input).1.2 = some err ∧
      (x.LookupEnv envSourceRegion = none →
        err.msg = "can not read envSourceRegion from environment variable OCI_SOURCE_REGION" ∧
          err.names envSourceRegion) ∧
      (x.LookupEnv envSourceRegion ≠ none →
        err.msg =
            "can not read envDestinationRegion from environment variable OCI_DESTINATION_REGION" ∧
          err.names envDestinationRegion) := by
  cases hs : x.LookupEnv envSourceRegion with
  | none =>
    refine ⟨_, by simp [generateAction, hs]; rfl, ?_, ?_⟩
    · intro _
      rw [Errorf_source_msg]
      exact ⟨rfl, by decide⟩
    · intro hne
      exact absurd rfl hne
  | some src =>
    have hd : x.LookupEnv envDestinationRegion = none := by
      rcases h with h | h
      · rw [hs] at h
        cases h
      · exact h
    refine ⟨_, by simp [generateAction, hs, hd]; rfl, ?_, ?_⟩
    · intro hc
      cases hc
    · intro _
      rw [Errorf_destination_msg]
      exact ⟨rfl, by decide⟩

theorem generateAction_missing_setting_witness :
    (∃ err, (generateAction (sampleWorld {} none none none none none) none
          (sampleEvent actionTypeDelete)).1.2 = some err ∧
        err.names envSourceRegion) ∧
      (∃ err, (generateAction (sampleWorld {} (some "us-1") none none none none) none
          (sampleEvent actionTypeCreate)).1.2 = some err ∧
        err.names envDestinationRegion) :=
  ⟨(generateAction_missing_setting (sampleWorld {} none none none none none) none
      (sampleEvent actionTypeDelete) (Or.inl (by decide))).elim
      (fun err h => ⟨err, h.1, (h.2.1 (by decide)).2⟩),
   (generateAction_missing_setting (sampleWorld {} (some "us-1") none none none none) none
      (sampleEvent actionTypeCreate) (Or.inr (by decide))).elim
      (fun err h => ⟨err, h.1, (h.2.2 (by decide)).2⟩)⟩

/-! ## Dispatch: `runAction` and the executors -/

theorem runAction_create (x : Externals) (action : Action)
    (h : action.ActionType = actionTypeCreate) :
    runAction x action =
      ((copyBlockVolumeBackup x action).1,
        [.call .runAction, .Println action] ++ (copyBlockVolumeBackup x action).2) := by
  unfold runAction
  simp only [h, if_true]
  cases (copyBlockVolumeBackup x action).1 <;> rfl

theorem runAction_delete (x : Externals) (action : Action)
    (h : action.ActionType = actionTypeDelete) :
    runAction x action =
      (none, [.call .runAction, .Println action, .call .deleteBlockVolumeBackupInAnotherRegion]) := by
  have hne : actionTypeDelete ≠ actionTypeCreate := fun e => actionTypeCreate_ne_actionTypeDelete e.symm
  unfold runAction
  simp [h, hne, deleteBlockVolumeBackupInAnotherRegion]

theorem runAction_default (x : Externals) (action : Action)
    (h1 : action.ActionType ≠ actionTypeCreate) (h2 : action.ActionType ≠ actionTypeDelete) :
    runAction x action =
      (some (Errorf "do nothing. ActionType : %s" action.ActionType),
        [.call .runAction, .Println action]) := by
  unfold runAction
  simp [h1, h2]

theorem copyBlockVolumeBackup_calls_le_one (x : Externals) (action : Action) :
    (outboundCalls (copyBlockVolumeBackup x action).2).length ≤ 1 := by
  unfold copyBlockVolumeBackup
  rcases hp : x.ResourcePrincipalConfigurationProvider with ⟨provider, _ | e⟩
  · rcases hc : x.NewBlockstorageClientWithConfigurationProvider provider with ⟨client, _ | e⟩
    · simp only [hc]
      split <;> simp [outboundCalls]
    · simp [hc, outboundCalls]
  · simp [outboundCalls]

/-- C3: for an Action of the backup-created kind, when credential acquisition
and client construction succeed, `runAction` issues exactly one outbound copy
request; it is made on the constructed client after its region was set to
`SourceRegion`, under the Action's context, and carries `BootVolumeBackupOCID`
as the backup identifier, `DestinationRegion` as the destination region and
`BootVolumeBackupName` as the display name. -/
theorem runAction_create_issues_one_copy (x : Externals) (action : Action)
    (provider : ConfigurationProvider) (client : BlockstorageClient)
    (hk : action.ActionType = actionTypeCreate)
    (hp : x.ResourcePrincipalConfigurationProvider = (provider, none))
    (hc : x.NewBlockstorageClientWithConfigurationProvider provider = (client, none)) :
    outboundCalls (runAction x action).2 =
        [{ client := client.SetRegion action.SourceRegion,
           ctx := action.ctx,
           request :=
            { CopyBootVolumeBackupDetails :=
                { DestinationRegion := some action.DestinationRegion,
                  DisplayName := some action.BootVolumeBackupName },
              BootVolumeBackupId := some action.BootVolumeBackupOCID } }] ∧
      (client.SetRegion action.SourceRegion).Region = action.SourceRegion ∧
      (client.SetRegion action.SourceRegion).handle = client.handle := by
  refine ⟨?_, rfl, rfl⟩
  rw [runAction_create x action hk]
  unfold copyBlockVolumeBackup
  simp only [hp, hc]
  split <;> simp [outboundCalls]

theorem runAction_create_issues_one_copy_witness :
    outboundCalls (runAction
        (sampleWorld {} (some "us-1") (some "us-2") none none none)
        { BootVolumeBackupOCID := "ocid1.bootvolumebackup.a",
          BootVolumeBackupName := "nightly-1",
          SourceRegion := "us-1",
          DestinationRegion := "us-2",
          ActionType := actionTypeCreate,
          ctx := some ⟨1⟩ }).2 =
      [{ client := { handle := 7, Region := "us-1" },
         ctx := some ⟨1⟩,
         request :=
          { CopyBootVolumeBackupDetails :=
              { DestinationRegion := some "us-2", DisplayName := some "nightly-1" },
            BootVolumeBackupId := some "ocid1.bootvolumebackup.a" } }] :=
  (runAction_create_issues_one_copy
    (sampleWorld {} (some "us-1") (some "us-2") none none none)
    { BootVolumeBackupOCID := "ocid1.bootvolumebackup.a",
      BootVolumeBackupName := "nightly-1",
      SourceRegion := "us-1",
      DestinationRegion := "us-2",
      ActionType := actionTypeCreate,
      ctx := some ⟨1⟩ }
    ⟨7⟩ ⟨7, "home"⟩ rfl rfl rfl).1

/-! ## The handler: `fnMain` -/

theorem fnMain_of_resolution_error (x : Externals) (ctx : Option Context) (rd : List UInt8)
    (err : GoError) (h : (generateAction x ctx (x.Decode rd {})).1.2 = some err) :
    fnMain x ctx rd =
      [.InitSugar, .Decode] ++ (generateAction x ctx (x.Decode rd {})).2 ++
        [.Error err, .Sync] := by
  unfold fnMain
  simp [h]

theorem fnMain_of_dispatch_error (x : Externals) (ctx : Option Context) (rd : List UInt8)
    (err : GoError) (h : (generateAction x ctx (x.Decode rd {})).1.2 = none)
    (hr : (runAction x (generateAction x ctx (x.Decode rd {})).1.1).1 = some err) :
    fnMain x ctx rd =
      [.InitSugar, .Decode] ++ (generateAction x ctx (x.Decode rd {})).2 ++
        (runAction x (generateAction x ctx (x.Decode rd {})).1.1).2 ++ [.Error err, .Sync] := by
  unfold fnMain
  simp [h, hr]

theorem fnMain_of_success (x : Externals) (ctx : Option Context) (rd : List UInt8)
    (h : (generateAction x ctx (x.Decode rd {})).1.2 = none)
    (hr : (runAction x (generateAction x ctx (x.Decode rd {})).1.1).1 = none) :
    fnMain x ctx rd =
      [.InitSugar, .Decode] ++ (generateAction x ctx (x.Decode rd {})).2 ++
        (runAction x (generateAction x ctx (x.Decode rd {})).1.1).2 ++
        [.Write "Done!", .Sync] := by
  unfold fnMain
  simp [h, hr]

theorem generateAction_effects (x : Externals) (ctx : Option Context) (input : EventsInput) :
    written (generateAction x ctx input).2 = [] ∧
      outboundCalls (generateAction x ctx input).2 = [] ∧
      entered (generateAction x ctx input).2 = [.generateAction] := by
  unfold generateAction
  cases x.LookupEnv envSourceRegion <;> cases x.LookupEnv envDestinationRegion <;>
    simp [written, outboundCalls, entered]

theorem generateAction_ActionType (x : Externals) (ctx : Option Context) (input : EventsInput) :
    (generateAction x ctx input).1.1.ActionType = input.EventType := by
  unfold generateAction
  cases x.LookupEnv envSourceRegion <;> cases x.LookupEnv envDestinationRegion <;> rfl

theorem generateAction_error_iff (x : Externals) (ctx : Option Context) (input : EventsInput) :
    (generateAction x ctx input).1.2 = none ↔
      (x.LookupEnv envSourceRegion).isSome ∧ (x.LookupEnv envDestinationRegion).isSome := by
  unfold generateAction
  cases x.LookupEnv envSourceRegion <;> cases x.LookupEnv envDestinationRegion <;> simp

theorem copyBlockVolumeBackup_written (x : Externals) (action : Action) :
    written (copyBlockVolumeBackup x action).2 = [] := by
  unfold copyBlockVolumeBackup
  rcases hp : x.ResourcePrincipalConfigurationProvider with ⟨provider, _ | e⟩
  · rcases hc : x.NewBlockstorageClientWithConfigurationProvider provider with ⟨client, _ | e⟩
    · simp only [hc]
      split <;> simp [written]
    · simp [hc, written]
  · simp [written]

theorem runAction_written (x : Externals) (action : Action) :
    written (runAction x action).2 = [] := by
  by_cases h1 : action.ActionType = actionTypeCreate
  · rw [runAction_create x action h1]
    simp [written_append, written, copyBlockVolumeBackup_written]
  · by_cases h2 : action.ActionType = actionTypeDelete
    · rw [runAction_delete x action h2]
      simp [written]
    · rw [runAction_default x action h1 h2]
      simp [written]

theorem fnMain_written (x : Externals) (ctx : Option Context) (rd : List UInt8) :
    written (fnMain x ctx rd) =
      if (generateAction x ctx (x.Decode rd {})).1.2 = none ∧
          (runAction x (generateAction x ctx (x.Decode rd {})).1.1).1 = none
      then ["Done!"] else [] := by
  have hg := (generateAction_effects x ctx (x.Decode rd {})).1
  have hw := runAction_written x (generateAction x ctx (x.Decode rd {})).1.1
  cases h : (generateAction x ctx (x.Decode rd {})).1.2 with
  | some err =>
    rw [fnMain_of_resolution_error x ctx rd err h]
    simp [written_append, written, hg]
  | none =>
    cases hr : (runAction x (generateAction x ctx (x.Decode rd {})).1.1).1 with
    | some err =>
      rw [fnMain_of_dispatch_error x ctx rd err h hr]
      simp [written_append, written, hg, hw]
    | none =>
      rw [fnMain_of_success x ctx rd h hr]
      simp [written_append, written, hg, hw]

theorem fnMain_outboundCalls (x : Externals) (ctx : Option Context) (rd : List UInt8) :
    outboundCalls (fnMain x ctx rd) =
      if (generateAction x ctx (x.Decode rd {})).1.2 = none
      then outboundCalls (runAction x (generateAction x ctx (x.Decode rd {})).1.1).2 else [] := by
  have hg := (generateAction_effects x ctx (x.Decode rd {})).2.1
  cases h : (generateAction x ctx (x.Decode rd {})).1.2 with
  | some err =>
    rw [fnMain_of_resolution_error x ctx rd err h]
    simp [outboundCalls_append, outboundCalls, hg]
  | none =>
    cases hr : (runAction x (generateAction x ctx (x.Decode rd {})).1.1).1 with
    | some err =>
      rw [fnMain_of_dispatch_error x ctx rd err h hr]
      simp [outboundCalls_append, outboundCalls, hg]
    | none =>
      rw [fnMain_of_success x ctx rd h hr]
      simp [outboundCalls_append, outboundCalls, hg]

theorem runAction_ok_iff (x : Externals) (action : Action) :
    (runAction x action).1 = none ↔
      action.ActionType = actionTypeDelete ∨
        (action.ActionType = actionTypeCreate ∧ (copyBlockVolumeBackup x action).1 = none) := by
  by_cases h1 : action.ActionType = actionTypeCreate
  · have hne : action.ActionType ≠ actionTypeDelete := by
      rw [h1]
      exact actionTypeCreate_ne_actionTypeDelete
    rw [runAction_create x action h1]
    constructor
    · intro h
      exact Or.inr ⟨h1, h⟩
    · rintro (h | ⟨_, h⟩)
      · exact absurd h hne
      · exact h
  · by_cases h2 : action.ActionType = actionTypeDelete
    · rw [runAction_delete x action h2]
      simp [h2]
    · rw [runAction_default x action h1 h2]
      simp [h1, h2]

/-- C4: for an Action whose `ActionType` is neither the backup-created nor the
backup-deleted identifier (exact string comparison), `runAction` enters
neither executor and makes no outbound call: all it does is print the Action;
it returns a non-nil error whose text is `do nothing. ActionType : ` followed
by the `ActionType`. An invocation of `fnMain` that resolved to such an Action
writes nothing to its output. -/
theorem runAction_unmatched_kind (x : Externals) (action : Action)
    (h1 : action.ActionType ≠ actionTypeCreate) (h2 : action.ActionType ≠ actionTypeDelete) :
    (runAction x action).1 = some ⟨"do nothing. ActionType : " ++ action.ActionType⟩ ∧
      GoError.names ⟨"do nothing. ActionType : " ++ action.ActionType⟩ action.ActionType ∧
      (runAction x action).2 = [.call .runAction, .Println action] ∧
      entered (runAction x action).2 = [.runAction] ∧
      outboundCalls (runAction x action).2 = [] ∧
      (∀ ctx rd, (generateAction x ctx (x.Decode rd {})).1.1 = action →
        written (fnMain x ctx rd) = []) := by
  have hr := runAction_default x action h1 h2
  refine ⟨?_, ?_, ?_, ?_, ?_, ?_⟩
  · rw [hr]
    show some (Errorf "do nothing. ActionType : %s" action.ActionType) = _
    congr 1
    have hm := Errorf_unmatched_msg action.ActionType
    cases he : Errorf "do nothing. ActionType : %s" action.ActionType with
    | mk m =>
      rw [he] at hm
      simp only at hm
      rw [hm]
  · exact ⟨"do nothing. ActionType : ".data, [], by simp⟩
  · rw [hr]
  · rw [hr]
    rfl
  · rw [hr]
    rfl
  · intro ctx rd hgen
    rw [fnMain_written, hgen, hr]
    simp

theorem runAction_unmatched_kind_witness :
    (runAction (sampleWorld (sampleEvent "some.other.event") (some "us-1") (some "us-2")
          none none none)
        { BootVolumeBackupOCID := "ocid1.bootvolumebackup.a",
          BootVolumeBackupName := "nightly-1",
          SourceRegion := "us-1",
          DestinationRegion := "us-2",
          ActionType := "some.other.event",
          ctx := none }).1 = some ⟨"do nothing. ActionType : some.other.event"⟩ ∧
      written (fnMain (sampleWorld (sampleEvent "some.other.event") (some "us-1") (some "us-2")
          none none none) none []) = [] :=
  have h := runAction_unmatched_kind
    (sampleWorld (sampleEvent "some.other.event") (some "us-1") (some "us-2") none none none)
    { BootVolumeBackupOCID := "ocid1.bootvolumebackup.a",
      BootVolumeBackupName := "nightly-1",
      SourceRegion := "us-1",
      DestinationRegion := "us-2",
      ActionType := "some.other.event",
      ctx := none }
    (by decide) (by decide)
  ⟨h.1, h.2.2.2.2.2 none [] (by decide)⟩

/-- C5: for an Action whose `ActionType` is the backup-deleted identifier,
whatever its other fields, `runAction` enters the delete executor and no other
executor, returns the nil error and makes no outbound call; an invocation of
`fnMain` on a backup-deleted event with both region variables set writes
exactly `Done!` and makes no outbound call. -/
theorem runAction_delete_succeeds_without_calls (x : Externals) (action : Action)
    (h : action.ActionType = actionTypeDelete) :
    (runAction x action).1 = none ∧
      (runAction x action).1 = (deleteBlockVolumeBackupInAnotherRegion action).1 ∧
      (runAction x action).2 =
        [.call .runAction, .Println action, .call .deleteBlockVolumeBackupInAnotherRegion] ∧
      entered (runAction x action).2 = [.runAction, .deleteBlockVolumeBackupInAnotherRegion] ∧
      outboundCalls (runAction x action).2 = [] ∧
      (∀ ctx rd, (x.Decode rd {}).EventType = action.ActionType →
        (x.LookupEnv envSourceRegion).isSome → (x.LookupEnv envDestinationRegion).isSome →
        written (fnMain x ctx rd) = ["Done!"] ∧ outboundCalls (fnMain x ctx rd) = []) := by
  have hr := runAction_delete x action h
  refine ⟨by rw [hr], by rw [hr]; rfl, by rw [hr], by rw [hr]; rfl, by rw [hr]; rfl, ?_⟩
  intro ctx rd hev hs hd
  have hg : (generateAction x ctx (x.Decode rd {})).1.2 = none :=
    (generateAction_error_iff x ctx _).2 ⟨hs, hd⟩
  have hk : (generateAction x ctx (x.Decode rd {})).1.1.ActionType = actionTypeDelete := by
    rw [generateAction_ActionType, hev, h]
  have hr2 := runAction_delete x _ hk
  rw [fnMain_written, fnMain_outboundCalls, hg, hr2]
  simp [outboundCalls]

theorem runAction_delete_succeeds_without_calls_witness :
    runAction (sampleWorld (sampleEvent actionTypeDelete) (some "us-1") (some "us-2")
          (some ⟨"no credentials"⟩) none none)
        { ActionType := actionTypeDelete } =
      (none,
        [.call .runAction, .Println { ActionType := actionTypeDelete },
          .call .deleteBlockVolumeBackupInAnotherRegion]) ∧
      written (fnMain (sampleWorld (sampleEvent actionTypeDelete) (some "us-1") (some "us-2")
          (some ⟨"no credentials"⟩) none none) none []) = ["Done!"] :=
  have h := runAction_delete_succeeds_without_calls
    (sampleWorld (sampleEvent actionTypeDelete) (some "us-1") (some "us-2")
      (some ⟨"no credentials"⟩) none none)
    { ActionType := actionTypeDelete } rfl
  ⟨Prod.ext h.1 h.2.2.1, (h.2.2.2.2.2 none [] rfl (by decide) (by decide)).1⟩

/-- C6: what `fnMain` writes to its output is exactly `Done!` when
`generateAction` and `runAction` both return the nil error, and nothing
otherwise; hence it is `Done!` if and only if both region variables are set
and the event is either backup-deleted, or backup-created with the copy
executor returning the nil error. -/
theorem fnMain_output (x : Externals) (ctx : Option Context) (rd : List UInt8) :
    written (fnMain x ctx rd) =
        (if (generateAction x ctx (x.Decode rd {})).1.2 = none ∧
            (runAction x (generateAction x ctx (x.Decode rd {})).1.1).1 = none
          then ["Done!"] else []) ∧
      (written (fnMain x ctx rd) = ["Done!"] ↔
        (x.LookupEnv envSourceRegion).isSome ∧ (x.LookupEnv envDestinationRegion).isSome ∧
          ((x.Decode rd {}).EventType = actionTypeDelete ∨
            ((x.Decode rd {}).EventType = actionTypeCreate ∧
              (copyBlockVolumeBackup x (generateAction x ctx (x.Decode rd {})).1.1).1 = none))) := by
  refine ⟨fnMain_written x ctx rd, ?_⟩
  have hr := runAction_ok_iff x (generateAction x ctx (x.Decode rd {})).1.1
  have hg := generateAction_error_iff x ctx (x.Decode rd {})
  rw [generateAction_ActionType] at hr
  rw [fnMain_written]
  constructor
  · intro h
    by_cases hc : (generateAction x ctx (x.Decode rd {})).1.2 = none ∧
        (runAction x (generateAction x ctx (x.Decode rd {})).1.1).1 = none
    · exact ⟨(hg.1 hc.1).1, (hg.1 hc.1).2, hr.1 hc.2⟩
    · rw [if_neg hc] at h
      cases h
  · intro h
    rw [if_pos ⟨hg.2 ⟨h.1, h.2.1⟩, hr.2 h.2.2⟩]

theorem fnMain_output_witness :
    written (fnMain (sampleWorld (sampleEvent actionTypeCreate) (some "us-1") (some "us-2")
        none none none) none []) = ["Done!"] ∧
      written (fnMain (sampleWorld (sampleEvent actionTypeCreate) (some "us-1") (some "us-2")
        none none (some ⟨"rejected"⟩)) none []) = [] :=
  ⟨(fnMain_output (sampleWorld (sampleEvent actionTypeCreate) (some "us-1") (some "us-2")
      none none none) none []).2.2 (by decide),
   ((fnMain_output (sampleWorld (sampleEvent actionTypeCreate) (some "us-1") (some "us-2")
      none none (some ⟨"rejected"⟩)) none []).1).trans (by decide)⟩

/-- C7: when `generateAction` returns an error, `fnMain` logs it and returns:
`runAction` is not entered, no executor is entered, no outbound copy call is
made and nothing is written, whatever the event type; and this is the case
exactly when a region variable is not set. -/
theorem fnMain_no_dispatch_on_resolution_error (x : Externals) (ctx : Option Context)
    (rd : List UInt8) (err : GoError)
    (h : (generateAction x ctx (x.Decode rd {})).1.2 = some err) :
    fnMain x ctx rd =
        [.InitSugar, .Decode] ++ (generateAction x ctx (x.Decode rd {})).2 ++
          [.Error err, .Sync] ∧
      entered (fnMain x ctx rd) = [.generateAction] ∧
      Func.runAction ∉ entered (fnMain x ctx rd) ∧
      outboundCalls (fnMain x ctx rd) = [] ∧
      written (fnMain x ctx rd) = [] ∧
      (x.LookupEnv envSourceRegion = none ∨ x.LookupEnv envDestinationRegion = none) := by
  have hf := fnMain_of_resolution_error x ctx rd err h
  have hg := generateAction_effects x ctx (x.Decode rd {})
  have he : entered (fnMain x ctx rd) = [.generateAction] := by
    rw [hf]
    simp [entered_append, entered, hg.2.2]
  refine ⟨hf, he, ?_, ?_, ?_, ?_⟩
  · rw [he]
    decide
  · rw [fnMain_outboundCalls, h]
    simp
  · rw [fnMain_written, h]
    simp
  · by_contra hc
    have hn := (generateAction_error_iff x ctx (x.Decode rd {})).2
      ⟨by cases hs : x.LookupEnv envSourceRegion <;> simp_all,
       by cases hd : x.LookupEnv envDestinationRegion <;> simp_all⟩
    rw [h] at hn
    cases hn

theorem fnMain_no_dispatch_on_resolution_error_witness :
    fnMain (sampleWorld (sampleEvent actionTypeCreate) (some "us-1") none none none none)
        (some ⟨1⟩) [] =
      [.InitSugar, .Decode, .call .generateAction, .LookupEnv envSourceRegion,
        .LookupEnv envDestinationRegion,
        .Error
          ⟨"can not read envDestinationRegion from environment variable OCI_DESTINATION_REGION"⟩,
        .Sync] :=
  (fnMain_no_dispatch_on_resolution_error
    (sampleWorld (sampleEvent actionTypeCreate) (some "us-1") none none none none)
    (some ⟨1⟩) []
    ⟨"can not read envDestinationRegion from environment variable OCI_DESTINATION_REGION"⟩
    (by decide)).1.trans (by decide)

/-! ## Error propagation in the copy executor -/

/-- C8: for an Action of the backup-created kind, an error returned by
credential acquisition, by client construction or by the remote copy call is
the error that `copyBlockVolumeBackup` returns and that `runAction` returns;
at most one remote copy call is made, and none when credential acquisition or
client construction fails. -/
theorem copy_errors_propagate_unchanged (x : Externals) (action : Action)
    (hk : action.ActionType = actionTypeCreate) :
    (∀ provider e, x.ResourcePrincipalConfigurationProvider = (provider, some e) →
        (copyBlockVolumeBackup x action).1 = some e ∧ (runAction x action).1 = some e ∧
          outboundCalls (runAction x action).2 = []) ∧
      (∀ provider client e, x.ResourcePrincipalConfigurationProvider = (provider, none) →
        x.NewBlockstorageClientWithConfigurationProvider provider = (client, some e) →
        (copyBlockVolumeBackup x action).1 = some e ∧ (runAction x action).1 = some e ∧
          outboundCalls (runAction x action).2 = []) ∧
      (∀ c e, c ∈ outboundCalls (runAction x action).2 →
        (x.CopyBootVolumeBackup c).2 = some e →
        (copyBlockVolumeBackup x action).1 = some e ∧ (runAction x action).1 = some e) ∧
      (outboundCalls (copyBlockVolumeBackup x action).2).length ≤ 1 ∧
      (outboundCalls (runAction x action).2).length ≤ 1 := by
  have hr := runAction_create x action hk
  have hcalls : outboundCalls (runAction x action).2 =
      outboundCalls (copyBlockVolumeBackup x action).2 := by
    rw [hr]
    simp [outboundCalls_append, outboundCalls]
  have hres : (runAction x action).1 = (copyBlockVolumeBackup x action).1 := by
    rw [hr]
  rw [hcalls, hres]
  refine ⟨?_, ?_, ?_, copyBlockVolumeBackup_calls_le_one x action,
    copyBlockVolumeBackup_calls_le_one x action⟩
  · intro provider e hp
    unfold copyBlockVolumeBackup
    simp [hp, outboundCalls]
  · intro provider client e hp hc
    unfold copyBlockVolumeBackup
    simp [hp, hc, outboundCalls]
  · intro c e hmem hcall
    unfold copyBlockVolumeBackup at hmem ⊢
    rcases hp : x.ResourcePrincipalConfigurationProvider with ⟨provider, _ | e1⟩
    · rcases hc : x.NewBlockstorageClientWithConfigurationProvider provider with ⟨client, _ | e2⟩
      · simp only [hp, hc] at hmem ⊢
        have hc2 : c =
            { client := client.SetRegion action.SourceRegion,
              ctx := action.ctx,
              request :=
                { CopyBootVolumeBackupDetails :=
                    { DestinationRegion := some action.DestinationRegion,
                      DisplayName := some action.BootVolumeBackupName },
                  BootVolumeBackupId := some action.BootVolumeBackupOCID } } := by
          split at hmem <;> simpa [outboundCalls] using hmem
        subst hc2
        simp [hcall]
      · simp [hp, hc, outboundCalls] at hmem
    · simp [hp, outboundCalls] at hmem

theorem copy_errors_propagate_unchanged_witness :
    ((runAction (sampleWorld {} (some "us-1") (some "us-2") (some ⟨"no credentials"⟩) none none)
          { ActionType := actionTypeCreate }).1 = some ⟨"no credentials"⟩ ∧
        outboundCalls (runAction
          (sampleWorld {} (some "us-1") (some "us-2") (some ⟨"no credentials"⟩) none none)
          { ActionType := actionTypeCreate }).2 = []) ∧
      (runAction (sampleWorld {} (some "us-1") (some "us-2") none (some ⟨"no client"⟩) none)
          { ActionType := actionTypeCreate }).1 = some ⟨"no client"⟩ ∧
      (runAction (sampleWorld {} (some "us-1") (some "us-2") none none (some ⟨"rejected"⟩))
          { ActionType := actionTypeCreate }).1 = some ⟨"rejected"⟩ :=
  have h := (copy_errors_propagate_unchanged
    (sampleWorld {} (some "us-1") (some "us-2") (some ⟨"no credentials"⟩) none none)
    { ActionType := actionTypeCreate } rfl).1 ⟨7⟩ ⟨"no credentials"⟩ rfl
  ⟨⟨h.2.1, h.2.2⟩,
   ((copy_errors_propagate_unchanged
      (sampleWorld {} (some "us-1") (some "us-2") none (some ⟨"no client"⟩) none)
      { ActionType := actionTypeCreate } rfl).2.1 ⟨7⟩ ⟨7, "home"⟩ ⟨"no client"⟩ rfl rfl).2.1,
   ((copy_errors_propagate_unchanged
      (sampleWorld {} (some "us-1") (some "us-2") none none (some ⟨"rejected"⟩))
      { ActionType := actionTypeCreate } rfl).2.2.1
      { client := ⟨7, ""⟩, ctx := none,
        request :=
          { CopyBootVolumeBackupDetails := { DestinationRegion := some "", DisplayName := some "" },
            BootVolumeBackupId := some "" } }
      ⟨"rejected"⟩ (by decide) rfl).2⟩

/-! ## What resolution does and does not check -/

/-- C9, as the code has it: resolution copies and does not validate. When
`generateAction` returns no error, both region variables are set and the
Action's `SourceRegion`, `DestinationRegion`, `BootVolumeBackupOCID` and
`BootVolumeBackupName` are the two values of the variables and the event's
`data.resourceId` and `data.resourceName`, verbatim; so the four fields are
non-empty when those four inputs are. -/
theorem generateAction_success_copies_verbatim (x : Externals) (ctx : Option Context)
    (input : EventsInput) (h : (generateAction x ctx input).1.2 = none) :
    x.LookupEnv envSourceRegion = some (generateAction x ctx input).1.1.SourceRegion ∧
      x.LookupEnv envDestinationRegion =
        some (generateAction x ctx input).1.1.DestinationRegion ∧
      (generateAction x ctx input).1.1.BootVolumeBackupOCID = input.Data.ResourceID ∧
      (generateAction x ctx input).1.1.BootVolumeBackupName = input.Data.ResourceName ∧
      (input.Data.ResourceID ≠ "" → input.Data.ResourceName ≠ "" →
        x.LookupEnv envSourceRegion ≠ some "" → x.LookupEnv envDestinationRegion ≠ some "" →
        (generateAction x ctx input).1.1.BootVolumeBackupOCID ≠ "" ∧
          (generateAction x ctx input).1.1.BootVolumeBackupName ≠ "" ∧
          (generateAction x ctx input).1.1.SourceRegion ≠ "" ∧
          (generateAction x ctx input).1.1.DestinationRegion ≠ "") := by
  unfold generateAction at h ⊢
  cases hs : x.LookupEnv envSourceRegion with
  | none => simp [hs] at h
  | some src =>
    cases hd : x.LookupEnv envDestinationRegion with
    | none => simp [hs, hd] at h
    | some dst =>
      simp only [hs, hd]
      refine ⟨trivial, trivial, trivial, trivial, ?_⟩
      intro h1 h2 h3 h4
      exact ⟨h1, h2, fun e => h3 (by rw [e]), fun e => h4 (by rw [e])⟩

theorem generateAction_success_copies_verbatim_witness :
    (generateAction (sampleWorld {} (some "us-1") (some "us-2") none none none) none
        (sampleEvent actionTypeCreate)).1.1.BootVolumeBackupOCID ≠ "" ∧
      (generateAction (sampleWorld {} (some "us-1") (some "us-2") none none none) none
        (sampleEvent actionTypeCreate)).1.1.BootVolumeBackupName ≠ "" ∧
      (generateAction (sampleWorld {} (some "us-1") (some "us-2") none none none) none
        (sampleEvent actionTypeCreate)).1.1.SourceRegion ≠ "" ∧
      (generateAction (sampleWorld {} (some "us-1") (some "us-2") none none none) none
        (sampleEvent actionTypeCreate)).1.1.DestinationRegion ≠ "" :=
  (generateAction_success_copies_verbatim
    (sampleWorld {} (some "us-1") (some "us-2") none none none) none
    (sampleEvent actionTypeCreate) rfl).2.2.2.2 (by decide) (by decide) (by decide) (by decide)

/-- C9 as stated fails: with both region variables set to the empty string
and a backup-created event carrying no `resourceId` and no `resourceName`,
`generateAction` returns no error and an Action whose identifier, name and
regions are all empty, and `fnMain` issues the copy call with them. -/
theorem generateAction_accepts_empty_values :
    (generateAction (sampleWorld {} (some "") (some "") none none none) none
        { EventType := actionTypeCreate }).1 =
      ({ BootVolumeBackupOCID := "",
         BootVolumeBackupName := "",
         SourceRegion := "",
         DestinationRegion := "",
         ActionType := actionTypeCreate,
         ctx := none }, none) ∧
      outboundCalls (fnMain
        (sampleWorld { EventType := actionTypeCreate } (some "") (some "") none none none)
        none []) =
      [{ client := { handle := 7, Region := "" },
         ctx := none,
         request :=
          { CopyBootVolumeBackupDetails := { DestinationRegion := some "", DisplayName := some "" },
            BootVolumeBackupId := some "" } }] := by
  decide

/-- C10: when `generateAction` fails it still returns the Action built so far,
with `ActionType`, `BootVolumeBackupOCID` and `BootVolumeBackupName` copied
from the event and the nil `ctx`. If the source variable is not set, both
regions are empty and the destination variable is not looked up; otherwise the
destination variable is the one not set, `SourceRegion` is the configured
source and `DestinationRegion` is empty. -/
theorem generateAction_failure_returns_built_action (x : Externals) (ctx : Option Context)
    (input : EventsInput) (h : (generateAction x ctx input).1.2 ≠ none) :
    (x.LookupEnv envSourceRegion = none →
        (generateAction x ctx input).1.1 =
            { BootVolumeBackupOCID := input.Data.ResourceID,
              BootVolumeBackupName := input.Data.ResourceName,
              SourceRegion := "",
              DestinationRegion := "",
              ActionType := input.EventType,
              ctx := none } ∧
          lookedUp (generateAction x ctx input).2 = [envSourceRegion]) ∧
      (∀ src, x.LookupEnv envSourceRegion = some src →
        x.LookupEnv envDestinationRegion = none ∧
          (generateAction x ctx input).1.1 =
            { BootVolumeBackupOCID := input.Data.ResourceID,
              BootVolumeBackupName := input.Data.ResourceName,
              SourceRegion := src,
              DestinationRegion := "",
              ActionType := input.EventType,
              ctx := none } ∧
          lookedUp (generateAction x ctx input).2 = [envSourceRegion, envDestinationRegion]) := by
  unfold generateAction at h ⊢
  cases hs : x.LookupEnv envSourceRegion with
  | none => simp [lookedUp]
  | some src =>
    cases hd : x.LookupEnv envDestinationRegion with
    | none => simp [lookedUp]
    | some dst => simp [hs, hd] at h

theorem generateAction_failure_returns_built_action_witness :
    (generateAction (sampleWorld {} none (some "us-2") none none none) (some ⟨1⟩)
        (sampleEvent actionTypeCreate)).1.1 =
      { BootVolumeBackupOCID := "ocid1.bootvolumebackup.a",
        BootVolumeBackupName := "nightly-1",
        SourceRegion := "",
        DestinationRegion := "",
        ActionType := actionTypeCreate,
        ctx := none } ∧
      (generateAction (sampleWorld {} (some "us-1") none none none none) (some ⟨1⟩)
        (sampleEvent actionTypeCreate)).1.1 =
      { BootVolumeBackupOCID := "ocid1.bootvolumebackup.a",
        BootVolumeBackupName := "nightly-1",
        SourceRegion := "us-1",
        DestinationRegion := "",
        ActionType := actionTypeCreate,
        ctx := none } :=
  ⟨((generateAction_failure_returns_built_action
      (sampleWorld {} none (some "us-2") none none none) (some ⟨1⟩)
      (sampleEvent actionTypeCreate) (by decide)).1 rfl).1,
   ((generateAction_failure_returns_built_action
      (sampleWorld {} (some "us-1") none none none none) (some ⟨1⟩)
      (sampleEvent actionTypeCreate) (by decide)).2 "us-1" rfl).2.1⟩

end BootVolumeBackupMultiCopy
